import Mathlib

/-!
Verification development for the deerma_water integration.

We give a shallow embedding of the pure cores of the repository:

* `src/coordinator.py` — the data-fusion coordinator that merges polled
  snapshots with pushed MQTT state (`_async_update_data`, `_mqtt_callback`);
* `src/custom_components/mqtt_client.py` — the hand-rolled MQTT codec
  (`_encode_mqtt_remaining_length`, `_parse_mqtt_remaining_length`,
  `_parse_mqtt_publish_packet`, `_handle_mqtt_packet`), the reconnect
  backoff loop of `_listen_messages`, and the command translators
  (`async_set_temperature`, `async_set_volume`).

Python dictionaries are modelled as association lists over `String` keys in
which a later insertion overwrites an earlier one; bytes are modelled as
`List Nat` (every produced entry is < 256); Python exceptions on the polling
path are modelled with `Except`.
-/

/-- First-some choice on options: `ofirst a b` is `a` when `a` is `some`,
otherwise `b`.  Used to state lookup lemmas about layered dictionaries. -/
def ofirst {V : Type} (a b : Option V) : Option V :=
  match a with
  | some v => some v
  | none => b

/-- Lookup in an association list, first match wins (the lists we build by
`dinsert` have unique keys, so first match and last match agree there). -/
def dlookup {V : Type} : List (String × V) → String → Option V
  | [], _ => none
  | (k, v) :: rest, key => if k = key then some v else dlookup rest key

/-- Insertion into an association list with overwrite, modelling Python
`d[k] = v`: any earlier binding of `k` is removed and the new binding is
appended. -/
def dinsert {V : Type} (d : List (String × V)) (k : String) (v : V) :
    List (String × V) :=
  (d.filter (fun kv => kv.1 != k)) ++ [(k, v)]

/-- Right-biased dictionary merge, modelling Python `{**a, **b}`: every
binding of `b` is inserted into `a` in order, overwriting on key
collisions. -/
def dmerge {V : Type} (a b : List (String × V)) : List (String × V) :=
  b.foldl (fun acc kv => dinsert acc kv.1 kv.2) a

/-- Last-match lookup; this is what survives after all of `d` has been
inserted into another dictionary. -/
def dlast {V : Type} (d : List (String × V)) (key : String) : Option V :=
  dlookup d.reverse key

theorem ofirst_none {V : Type} (b : Option V) : ofirst none b = b := rfl

theorem ofirst_some {V : Type} (v : V) (b : Option V) :
    ofirst (some v) b = some v := rfl

theorem ofirst_assoc {V : Type} (a b c : Option V) :
    ofirst (ofirst a b) c = ofirst a (ofirst b c) := by
  cases a <;> cases b <;> rfl

theorem dlookup_append {V : Type} (xs ys : List (String × V)) (key : String) :
    dlookup (xs ++ ys) key = ofirst (dlookup xs key) (dlookup ys key) := by
  induction xs with
  | nil => rfl
  | cons kv rest ih =>
      obtain ⟨k, v⟩ := kv
      by_cases h : k = key
      · simp [dlookup, h, ofirst]
      · simp [dlookup, h, ih]

theorem dlookup_filter_of_true {V : Type} (p : String × V → Bool)
    (d : List (String × V)) (key : String)
    (hp : ∀ v, p (key, v) = true) :
    dlookup (d.filter p) key = dlookup d key := by
  induction d with
  | nil => rfl
  | cons kv rest ih =>
      obtain ⟨k, v⟩ := kv
      by_cases hk : k = key
      · subst hk
        rw [List.filter_cons, hp v]
        simp [dlookup, ih]
      · rw [List.filter_cons]
        cases hpv : p (k, v) with
        | true => simp [dlookup, hk, ih]
        | false => simp [dlookup, hk, ih]

theorem dlookup_filter_of_false {V : Type} (p : String × V → Bool)
    (d : List (String × V)) (key : String)
    (hp : ∀ v, p (key, v) = false) :
    dlookup (d.filter p) key = none := by
  induction d with
  | nil => rfl
  | cons kv rest ih =>
      obtain ⟨k, v⟩ := kv
      by_cases hk : k = key
      · subst hk
        rw [List.filter_cons, hp v]
        simpa using ih
      · rw [List.filter_cons]
        cases hpv : p (k, v) with
        | true => simp [dlookup, hk, ih]
        | false => simpa using ih

theorem dlookup_dinsert {V : Type} (d : List (String × V)) (k : String)
    (v : V) (key : String) :
    dlookup (dinsert d k v) key = if k = key then some v else dlookup d key := by
  unfold dinsert
  rw [dlookup_append]
  by_cases h : k = key
  · subst h
    rw [dlookup_filter_of_false (fun kv => kv.1 != k) d k (fun v2 => by simp)]
    simp [dlookup, ofirst]
  · rw [dlookup_filter_of_true (fun kv => kv.1 != k) d key
      (fun v2 => by simp; exact fun hc => h hc.symm)]
    simp [dlookup, h, ofirst]
    cases dlookup d key <;> rfl

theorem dlast_nil {V : Type} (key : String) :
    dlast ([] : List (String × V)) key = none := rfl

theorem dlast_cons {V : Type} (k : String) (v : V) (rest : List (String × V))
    (key : String) :
    dlast ((k, v) :: rest) key
      = ofirst (dlast rest key) (if k = key then some v else none) := by
  unfold dlast
  rw [List.reverse_cons, dlookup_append]
  simp [dlookup]

theorem dlookup_dmerge {V : Type} (b a : List (String × V)) (key : String) :
    dlookup (dmerge a b) key = ofirst (dlast b key) (dlookup a key) := by
  induction b generalizing a with
  | nil => simp [dmerge, dlast, dlookup, ofirst]
  | cons kv rest ih =>
      obtain ⟨k, v⟩ := kv
      have hstep : dmerge a ((k, v) :: rest) = dmerge (dinsert a k v) rest := rfl
      rw [hstep, ih, dlast_cons, ofirst_assoc, dlookup_dinsert]
      by_cases h : k = key
      · simp [h, ofirst]
      · simp [h, ofirst]

theorem dlookup_eq_none_of_not_mem {V : Type} (d : List (String × V))
    (key : String) (h : key ∉ d.map Prod.fst) : dlookup d key = none := by
  induction d with
  | nil => rfl
  | cons kv rest ih =>
      obtain ⟨k, v⟩ := kv
      simp only [List.map_cons, List.mem_cons] at h
      push_neg at h
      have hk : ¬ k = key := fun hk => h.1 hk.symm
      simp [dlookup, hk, ih h.2]

theorem dlast_eq_dlookup_of_nodup {V : Type} (d : List (String × V))
    (key : String) (h : (d.map Prod.fst).Nodup) :
    dlast d key = dlookup d key := by
  induction d with
  | nil => rfl
  | cons kv rest ih =>
      obtain ⟨k, v⟩ := kv
      simp only [List.map_cons, List.nodup_cons] at h
      rw [dlast_cons, ih h.2]
      by_cases hk : k = key
      · subst hk
        rw [dlookup_eq_none_of_not_mem rest k h.1]
        simp [dlookup, ofirst]
      · simp [dlookup, hk, ofirst]
        cases dlookup rest key <;> rfl

/-- Extract the success value of an `Except`, modelling observation of a
Python call that did not raise. -/
def exOk {E A : Type} : Except E A → Option A
  | Except.ok a => some a
  | Except.error _ => none

/-- Embeds `DeermaWaterCoordinator._mqtt_callback`
(src/coordinator.py lines 134-143): the pushed payload is merged over the
current coordinator data, pushed fields overwriting on key collision. -/
def mqttCallback {V : Type} (currentData payload : List (String × V)) :
    List (String × V) :=
  dmerge currentData payload

/-- Embeds the success branch of `DeermaWaterCoordinator._async_update_data`
(src/coordinator.py lines 67-84): `mqtt_data` is the previous data minus the
`water_data` and `device_id` keys, and the result is the Python dict literal
`\x7b"water_data": w, "device_id": d, **status, **mqtt_data\x7d`, built by
inserting left to right so that later sources overwrite earlier ones. -/
def updateDataSuccess {V : Type} (deviceIdVal waterData : V)
    (status prev : List (String × V)) : List (String × V) :=
  let mqttData := prev.filter (fun kv => kv.1 != "water_data" && kv.1 != "device_id")
  dmerge (dmerge [("water_data", waterData), ("device_id", deviceIdVal)] status) mqttData

/-- Embeds `DeermaWaterCoordinator._async_update_data`
(src/coordinator.py lines 61-90).  `hasDeviceId` models the truthiness of
`self.device_id`; `poll` models the two awaited API calls, with
`Except.error` standing for a raised exception; on failure the previous data
is returned unchanged when it is non-empty, otherwise `UpdateFailed` is
raised (modelled as `Except.error`). -/
def asyncUpdateData {V : Type} (deviceIdVal : V) (hasDeviceId : Bool)
    (prev : List (String × V)) (poll : Except String (V × List (String × V))) :
    Except String (List (String × V)) :=
  if !hasDeviceId then Except.ok prev
  else
    match poll with
    | Except.ok (waterData, status) =>
        Except.ok (updateDataSuccess deviceIdVal waterData status prev)
    | Except.error e => if prev.isEmpty then Except.error e else Except.ok prev

theorem dlookup_updateDataSuccess_of_prev {V : Type} (deviceIdVal waterData : V)
    (status prev : List (String × V)) (key : String) (v : V)
    (hnodup : (prev.map Prod.fst).Nodup)
    (hw : key ≠ "water_data") (hd : key ≠ "device_id")
    (hprev : dlookup prev key = some v) :
    dlookup (updateDataSuccess deviceIdVal waterData status prev) key = some v := by
  unfold updateDataSuccess
  rw [dlookup_dmerge]
  have hfilter : dlookup
      (prev.filter (fun kv => kv.1 != "water_data" && kv.1 != "device_id")) key
      = dlookup prev key := by
    apply dlookup_filter_of_true
    intro v2
    simp [hw, hd]
  have hsub : (prev.filter
      (fun kv => kv.1 != "water_data" && kv.1 != "device_id")).Sublist prev :=
    List.filter_sublist prev
  have hnodup2 : ((prev.filter
      (fun kv => kv.1 != "water_data" && kv.1 != "device_id")).map Prod.fst).Nodup :=
    (hsub.map Prod.fst).nodup hnodup
  rw [dlast_eq_dlookup_of_nodup _ _ hnodup2, hfilter, hprev]
  rfl

theorem dlookup_mqttCallback_of_payload {V : Type}
    (currentData payload : List (String × V)) (key : String) (v : V)
    (hnodup : (payload.map Prod.fst).Nodup)
    (hpayload : dlookup payload key = some v) :
    dlookup (mqttCallback currentData payload) key = some v := by
  unfold mqttCallback
  rw [dlookup_dmerge, dlast_eq_dlookup_of_nodup _ _ hnodup, hpayload]
  rfl

/-- C1 counterexample: starting from `\x7b"x":1,"y":2\x7d`, delivering a push of
`\x7b"y":9\x7d` and then a successful poll returning status `\x7b"x":5,"z":7\x7d` does
NOT yield `x = 5` as the claim states: `_async_update_data` re-applies every
previous field except `water_data`/`device_id` on top of the fresh status, so
the stale `x = 1` survives the poll. -/
theorem c1_counterexample :
    (exOk (asyncUpdateData (0 : Int) true
        (mqttCallback [("x", 1), ("y", 2)] [("y", 9)])
        (Except.ok (0, [("x", 5), ("z", 7)])))).bind (fun d => dlookup d "x")
      = some 1 ∧
    (exOk (asyncUpdateData (0 : Int) true
        (mqttCallback [("x", 1), ("y", 2)] [("y", 9)])
        (Except.ok (0, [("x", 5), ("z", 7)])))).bind (fun d => dlookup d "x")
      ≠ some 5 := by
  constructor
  · decide
  · decide

/-- C1 (amended): delivering a push of `\x7b"y":9\x7d` over `\x7b"x":1,"y":2\x7d` yields
`\x7b"x":1,"y":9\x7d`, but a subsequent successful poll returning `\x7b"x":5,"z":7\x7d`
yields `x = 1`, `y = 9`, `z = 7` (not `x = 5`): every field of the previous
snapshot other than `water_data`/`device_id` wins over the same field of the
poll result, so in particular a push-sourced field always wins over a poll
field and a poll refresh never discards push-sourced fields absent from the
new poll result. -/
theorem c1_merge_priority :
    (dlookup (mqttCallback [("x", (1 : Int)), ("y", 2)] [("y", 9)]) "x" = some 1
      ∧ dlookup (mqttCallback [("x", (1 : Int)), ("y", 2)] [("y", 9)]) "y" = some 9)
    ∧ (asyncUpdateData (0 : Int) true (mqttCallback [("x", 1), ("y", 2)] [("y", 9)])
          (Except.ok (0, [("x", 5), ("z", 7)]))
        = Except.ok (updateDataSuccess (0 : Int) 0 [("x", 5), ("z", 7)]
            (mqttCallback [("x", 1), ("y", 2)] [("y", 9)]))
      ∧ dlookup (updateDataSuccess (0 : Int) 0 [("x", 5), ("z", 7)]
            (mqttCallback [("x", 1), ("y", 2)] [("y", 9)])) "x" = some 1
      ∧ dlookup (updateDataSuccess (0 : Int) 0 [("x", 5), ("z", 7)]
            (mqttCallback [("x", 1), ("y", 2)] [("y", 9)])) "y" = some 9
      ∧ dlookup (updateDataSuccess (0 : Int) 0 [("x", 5), ("z", 7)]
            (mqttCallback [("x", 1), ("y", 2)] [("y", 9)])) "z" = some 7)
    ∧ (∀ (V : Type) (deviceIdVal waterData : V) (status prev : List (String × V))
          (key : String) (v : V),
        (prev.map Prod.fst).Nodup → key ≠ "water_data" → key ≠ "device_id" →
        dlookup prev key = some v →
        dlookup (updateDataSuccess deviceIdVal waterData status prev) key = some v)
    ∧ (∀ (V : Type) (currentData payload : List (String × V)) (key : String) (v : V),
        (payload.map Prod.fst).Nodup → dlookup payload key = some v →
        dlookup (mqttCallback currentData payload) key = some v) := by
  refine ⟨⟨by decide, by decide⟩, ⟨rfl, by decide, by decide, by decide⟩, ?_, ?_⟩
  · intro V deviceIdVal waterData status prev key v hnodup hw hd hprev
    exact dlookup_updateDataSuccess_of_prev deviceIdVal waterData status prev key v
      hnodup hw hd hprev
  · intro V currentData payload key v hnodup hpayload
    exact dlookup_mqttCallback_of_payload currentData payload key v hnodup hpayload

/-- C1 witness: the general push-survival part of `c1_merge_priority`
evaluated at a concrete snapshot. -/
theorem c1_witness :
    dlookup (updateDataSuccess (0 : Int) 0 [("x", 5)] [("y", 9)]) "y" = some 9 :=
  c1_merge_priority.2.2.1 Int 0 0 [("x", 5)] [("y", 9)] "y" 9
    (by decide) (by decide) (by decide) (by decide)

/-- C5: whenever the poll raises, the previous non-empty coordinator data is
returned completely unchanged and the failure is non-fatal (an `ok` result,
not an error): the exposed state is never blanked by a transient poll
failure. -/
theorem c5_poll_failure_preserves_state {V : Type} (deviceIdVal : V)
    (hasDeviceId : Bool) (prev : List (String × V)) (e : String)
    (hne : prev ≠ []) :
    asyncUpdateData deviceIdVal hasDeviceId prev (Except.error e)
      = Except.ok prev := by
  unfold asyncUpdateData
  cases hasDeviceId with
  | false => rfl
  | true =>
      have hempty : prev.isEmpty = false := by
        cases prev with
        | nil => exact absurd rfl hne
        | cons a l => rfl
      simp [hempty]

/-- C5 witness: the spec's own scenario, a failed refresh on snapshot
`\x7b"x":5,"y":9,"z":7\x7d` leaves it unchanged. -/
theorem c5_witness :
    asyncUpdateData (0 : Int) true [("x", 5), ("y", 9), ("z", 7)]
        (Except.error "boom")
      = Except.ok [("x", 5), ("y", 9), ("z", 7)] :=
  c5_poll_failure_preserves_state 0 true [("x", 5), ("y", 9), ("z", 7)] "boom"
    (by decide)

/-- Embeds `DeermaMQTTClient._encode_mqtt_remaining_length`
(src/custom_components/mqtt_client.py lines 103-114): base-128 continuation
encoding, least significant group first, continuation bit `0x80` set on every
byte except the last (the Python do-while loop emits `length % 128`, sets the
top bit when more groups follow, then divides by 128). -/
def encodeMqttRemainingLength (length : Nat) : List Nat :=
  if h : length / 128 > 0 then
    (length % 128 + 128) :: encodeMqttRemainingLength (length / 128)
  else
    [length % 128]
termination_by length
decreasing_by
  simp_wf
  omega

/-- One iteration bound of the parsing loop of
`DeermaMQTTClient._parse_mqtt_remaining_length`.  The Python `while` runs
while `pos < len(packet) and pos < start_pos + 4`; here `fuel` is the
remaining iteration budget `start_pos + 4 - pos`, so the loop shape is
identical and the `fuel = 0` case is the `pos = start_pos + 4` exit. -/
def parseRLAux (packet : List Nat) : Nat → Nat → Nat → Nat → Nat × Nat
  | 0, pos, acc, _ => (acc, pos)
  | fuel + 1, pos, acc, mult =>
      if pos < packet.length then
        let byte := packet.getD pos 0
        if byte &&& 128 == 0 then (acc + (byte &&& 127) * mult, pos + 1)
        else parseRLAux packet fuel (pos + 1) (acc + (byte &&& 127) * mult) (mult * 128)
      else (acc, pos)

/-- Embeds `DeermaMQTTClient._parse_mqtt_remaining_length`
(src/custom_components/mqtt_client.py lines 185-197): accumulates
`(byte & 0x7F) * multiplier` for at most 4 bytes starting at `start_pos`,
stopping after the first byte whose continuation bit `0x80` is clear, and
returns the accumulated value together with the next position. -/
def parseMqttRemainingLength (packet : List Nat) (startPos : Nat) : Nat × Nat :=
  parseRLAux packet 4 startPos 0 1

/-- C2: for every n in \x7b0, 1, 127, 128, 16383, 16384, 2097151\x7d, decoding the
encoding of n starting at its first byte returns n (with the next offset
equal to the encoded size), and the encodings occupy respectively
1, 1, 1, 2, 2, 3, 3 bytes. -/
theorem c2_remaining_length_round_trip :
    (parseMqttRemainingLength (encodeMqttRemainingLength 0) 0
        = (0, (encodeMqttRemainingLength 0).length)
      ∧ (encodeMqttRemainingLength 0).length = 1)
    ∧ (parseMqttRemainingLength (encodeMqttRemainingLength 1) 0
        = (1, (encodeMqttRemainingLength 1).length)
      ∧ (encodeMqttRemainingLength 1).length = 1)
    ∧ (parseMqttRemainingLength (encodeMqttRemainingLength 127) 0
        = (127, (encodeMqttRemainingLength 127).length)
      ∧ (encodeMqttRemainingLength 127).length = 1)
    ∧ (parseMqttRemainingLength (encodeMqttRemainingLength 128) 0
        = (128, (encodeMqttRemainingLength 128).length)
      ∧ (encodeMqttRemainingLength 128).length = 2)
    ∧ (parseMqttRemainingLength (encodeMqttRemainingLength 16383) 0
        = (16383, (encodeMqttRemainingLength 16383).length)
      ∧ (encodeMqttRemainingLength 16383).length = 2)
    ∧ (parseMqttRemainingLength (encodeMqttRemainingLength 16384) 0
        = (16384, (encodeMqttRemainingLength 16384).length)
      ∧ (encodeMqttRemainingLength 16384).length = 3)
    ∧ (parseMqttRemainingLength (encodeMqttRemainingLength 2097151) 0
        = (2097151, (encodeMqttRemainingLength 2097151).length)
      ∧ (encodeMqttRemainingLength 2097151).length = 3) := by
  have h0 : encodeMqttRemainingLength 0 = [0] := by
    simp [encodeMqttRemainingLength]
  have h1 : encodeMqttRemainingLength 1 = [1] := by
    simp [encodeMqttRemainingLength]
  have h127 : encodeMqttRemainingLength 127 = [127] := by
    simp [encodeMqttRemainingLength]
  have h128 : encodeMqttRemainingLength 128 = [128, 1] := by
    simp [encodeMqttRemainingLength]
  have h16383 : encodeMqttRemainingLength 16383 = [255, 127] := by
    simp [encodeMqttRemainingLength]
  have h16384 : encodeMqttRemainingLength 16384 = [128, 128, 1] := by
    simp [encodeMqttRemainingLength]
  have h2097151 : encodeMqttRemainingLength 2097151 = [255, 255, 127] := by
    simp [encodeMqttRemainingLength]
  simp only [h0, h1, h127, h128, h16383, h16384, h2097151]
  decide

theorem parseRLAux_pos_le (packet : List Nat) (fuel : Nat) :
    ∀ pos acc mult, (parseRLAux packet fuel pos acc mult).2 ≤ pos + fuel := by
  induction fuel with
  | zero => intro pos acc mult; simp [parseRLAux]
  | succ f ih =>
      intro pos acc mult
      unfold parseRLAux
      by_cases hlen : pos < packet.length
      · rw [if_pos hlen]
        by_cases hbit : (packet.getD pos 0 &&& 128 == 0) = true
        · rw [if_pos hbit]
          omega
        · rw [if_neg hbit]
          have := ih (pos + 1) (acc + (packet.getD pos 0 &&& 127) * mult) (mult * 128)
          omega
      · rw [if_neg hlen]
        omega

/-- C9 counterexample: a malformed encoding whose first four bytes all carry
the continuation bit (so a 5th continuation byte follows) does NOT yield any
error: the parser silently returns the value accumulated from the first four
bytes together with the next position. -/
theorem c9_counterexample :
    parseMqttRemainingLength [255, 255, 255, 255, 1] 0 = (268435455, 4) := by
  decide

/-- C9 (amended): `_parse_mqtt_remaining_length` consumes at most 4 bytes of
input (the returned next position is at most `startPos + 4`), but a malformed
encoding with a 5th continuation byte is not rejected — there is no error
path at all, and the parser returns the value accumulated from the first four
bytes, as on `[0x80, 0x80, 0x80, 0x80, 0x80]`. -/
theorem c9_remaining_length_bounded :
    (∀ (packet : List Nat) (startPos : Nat),
        (parseMqttRemainingLength packet startPos).2 ≤ startPos + 4)
    ∧ parseMqttRemainingLength [128, 128, 128, 128, 128] 0 = (0, 4) := by
  constructor
  · intro packet startPos
    exact parseRLAux_pos_le packet 4 startPos 0 1
  · decide

/-- Topic length field of a PUBLISH frame, read at variable-header position
`pos`: `(packet[pos] << 8) | packet[pos + 1]`
(src/custom_components/mqtt_client.py line 209). -/
def publishTopicLength (packet : List Nat) (pos : Nat) : Nat :=
  (packet.getD pos 0) <<< 8 ||| packet.getD (pos + 1) 0

/-- QoS bits of a PUBLISH frame: `(packet[0] & 0x06) >> 1`
(src/custom_components/mqtt_client.py line 218). -/
def publishQos (packet : List Nat) : Nat :=
  (packet.getD 0 0 &&& 6) >>> 1

/-- Start position of the payload: after the topic, plus 2 bytes of packet
identifier when QoS ≥ 1. -/
def publishPayloadStart (packet : List Nat) (pos : Nat) : Nat :=
  pos + 2 + publishTopicLength packet pos + (if 1 ≤ publishQos packet then 2 else 0)

/-- Declared payload length of a PUBLISH frame:
`remaining_length - 2 - topic_length - (2 if qos >= 1 else 0)`
(src/custom_components/mqtt_client.py line 224), computed over `Int` because
Python's subtraction can go negative. -/
def declaredPayloadLength (packet : List Nat) (remainingLength pos : Nat) : Int :=
  (remainingLength : Int) - 2 - (publishTopicLength packet pos : Int) -
    (if 1 ≤ publishQos packet then 2 else 0)

/-- Payload slice of a PUBLISH frame
(src/custom_components/mqtt_client.py lines 224-228): when the declared
payload length is negative or runs past the end of the buffer the code falls
back to `packet[pos:]` (the whole remaining buffer), otherwise it takes
exactly the declared number of bytes. -/
def publishPayloadBytes (packet : List Nat) (remainingLength pos : Nat) :
    List Nat :=
  if declaredPayloadLength packet remainingLength pos < 0 ∨
      (publishPayloadStart packet pos : Int)
        + declaredPayloadLength packet remainingLength pos
        > (packet.length : Int) then
    packet.drop (publishPayloadStart packet pos)
  else
    (packet.drop (publishPayloadStart packet pos)).take
      (declaredPayloadLength packet remainingLength pos).toNat

/-- Embeds `DeermaMQTTClient._parse_mqtt_publish_packet`
(src/custom_components/mqtt_client.py lines 199-230), with the topic kept as
raw bytes (the Python code decodes it with `errors="ignore"`, which never
fails; the decode is applied by the caller model `handleMqttPacket`).
`none` models the `(None, None)` return. -/
def parseMqttPublishPacket (packet : List Nat) : Option (List Nat × List Nat) :=
  if packet.length < 4 then none
  else
    match parseMqttRemainingLength packet 1 with
    | (remainingLength, pos) =>
      if pos + 2 > packet.length ∨ remainingLength = 0 then none
      else if pos + 2 + publishTopicLength packet pos > packet.length then none
      else if 1 ≤ publishQos packet
          ∧ pos + 2 + publishTopicLength packet pos + 2 > packet.length then none
      else
        some ((packet.drop (pos + 2)).take (publishTopicLength packet pos),
          publishPayloadBytes packet remainingLength pos)

/-- C3 counterexample: the PUBLISH frame `[0x30, 10, 0x00, 0x01, 0x61, 0x62]`
declares remaining length 10, far more than the 4 bytes actually available
after the fixed header, yet decoding does NOT fail: it returns topic `"a"`
(byte 0x61) together with the truncated garbage payload `[0x62]` — the code
has no ProtocolError path and falls back to `packet[pos:]`. -/
theorem c3_counterexample :
    parseMqttPublishPacket [48, 10, 0, 1, 97, 98] = some ([97], [98]) := by
  decide

/-- C3 (amended): a PUBLISH frame whose declared remaining length exceeds the
bytes actually available is not rejected: whenever the fixed-size checks on
the topic and packet-identifier fields pass but the declared payload length
is negative or runs past the end of the buffer, the parser returns the topic
together with the whole remaining buffer `packet[pos:]` as a (possibly
truncated) payload. -/
theorem c3_overlong_payload_truncated (packet : List Nat)
    (remainingLength pos : Nat)
    (h4 : ¬ packet.length < 4)
    (hrl : parseMqttRemainingLength packet 1 = (remainingLength, pos))
    (h1 : ¬ (pos + 2 > packet.length ∨ remainingLength = 0))
    (h2 : ¬ pos + 2 + publishTopicLength packet pos > packet.length)
    (h3 : ¬ (1 ≤ publishQos packet
      ∧ pos + 2 + publishTopicLength packet pos + 2 > packet.length))
    (hover : declaredPayloadLength packet remainingLength pos < 0 ∨
      (publishPayloadStart packet pos : Int)
        + declaredPayloadLength packet remainingLength pos
        > (packet.length : Int)) :
    parseMqttPublishPacket packet
      = some ((packet.drop (pos + 2)).take (publishTopicLength packet pos),
          packet.drop (publishPayloadStart packet pos)) := by
  unfold parseMqttPublishPacket
  rw [if_neg h4, hrl]
  dsimp only
  rw [if_neg h1, if_neg h2, if_neg h3]
  unfold publishPayloadBytes
  rw [if_pos hover]

/-- C3 witness: `c3_overlong_payload_truncated` applied to the concrete frame
`[0x30, 20, 0x00, 0x02, 0x61, 0x62, 0x63]` (declared remaining length 20,
only 5 bytes available): the result is the truncated payload `[0x63]`. -/
theorem c3_witness :
    parseMqttPublishPacket [48, 20, 0, 2, 97, 98, 99] = some ([97, 98], [99]) := by
  have h := c3_overlong_payload_truncated [48, 20, 0, 2, 97, 98, 99] 20 2
    (by decide) (by decide) (by decide) (by decide) (by decide) (Or.inr (by decide))
  exact h

/-- JSON values as produced by `json.loads`; numbers are restricted to the
integers this device protocol uses. -/
inductive JsonVal : Type
  | null : JsonVal
  | boolean : Bool → JsonVal
  | num : Int → JsonVal
  | str : String → JsonVal
  | arr : List JsonVal → JsonVal
  | obj : List (String × JsonVal) → JsonVal

/-- Python truthiness of a JSON value: `None`, `False`, `0`, `""`, `[]` and
`\x7b\x7d` are falsy, everything else truthy. -/
def jsonTruthy : JsonVal → Bool
  | JsonVal.null => false
  | JsonVal.boolean b => b
  | JsonVal.num n => n != 0
  | JsonVal.str s => s != ""
  | JsonVal.arr xs => !xs.isEmpty
  | JsonVal.obj fs => !fs.isEmpty

/-- Embeds the shadow-document handling of
`DeermaMQTTClient._handle_mqtt_packet`
(src/custom_components/mqtt_client.py lines 254-271): the payload is parsed
as JSON (`none` models a parse failure, caught by the `except`), then
`state = payload_data.get("state", \x7b\x7d)` and
`reported = state.get("reported", \x7b\x7d)` are read — a non-dict payload or a
non-dict `state` raises `AttributeError`, also caught — and the callback is
invoked with `reported` exactly when `reported` is truthy.  The result is
the argument passed to the callback, `none` when no callback fires. -/
def handleShadowPayload (parsed : Option JsonVal) : Option JsonVal :=
  match parsed with
  | some (JsonVal.obj fields) =>
    match (dlookup fields "state").getD (JsonVal.obj []) with
    | JsonVal.obj sfields =>
      let reported := (dlookup sfields "reported").getD (JsonVal.obj [])
      if jsonTruthy reported then some reported else none
    | _ => none
  | _ => none

/-- Composition of the shadow handler with the coordinator callback
(src/coordinator.py lines 134-143): when the handler fires with a reported
object its fields are merged over the coordinator data; otherwise — no
callback, a JSON parse failure, or a non-object callback argument (which
makes `\x7b**current, **payload\x7d` raise inside the caught region) — the data is
unchanged. -/
def processPush (prev : List (String × JsonVal)) (parsed : Option JsonVal) :
    List (String × JsonVal) :=
  match handleShadowPayload parsed with
  | some (JsonVal.obj fields) => mqttCallback prev fields
  | _ => prev

/-- C4: only entries under `reported` are ever merged into the exposed view —
whenever the shadow handler fires, its argument is exactly the truthy value
of the `reported` key of the document's `state` object — and a document
whose state has no `reported` entry (or an empty one, in particular a
`desired`-only document) triggers no callback and leaves the coordinator
snapshot unchanged. -/
theorem c4_only_reported_merged :
    (∀ (parsed : Option JsonVal) (r : JsonVal),
        handleShadowPayload parsed = some r →
        ∃ (fields sfields : List (String × JsonVal)),
          parsed = some (JsonVal.obj fields)
          ∧ dlookup fields "state" = some (JsonVal.obj sfields)
          ∧ dlookup sfields "reported" = some r
          ∧ jsonTruthy r = true)
    ∧ (∀ (fields sfields : List (String × JsonVal)),
        dlookup fields "state" = some (JsonVal.obj sfields) →
        (dlookup sfields "reported" = none
          ∨ dlookup sfields "reported" = some (JsonVal.obj [])) →
        handleShadowPayload (some (JsonVal.obj fields)) = none)
    ∧ (∀ (fields sfields : List (String × JsonVal))
          (prev : List (String × JsonVal)),
        dlookup fields "state" = some (JsonVal.obj sfields) →
        (dlookup sfields "reported" = none
          ∨ dlookup sfields "reported" = some (JsonVal.obj [])) →
        processPush prev (some (JsonVal.obj fields)) = prev) := by
  have hnone : ∀ (fields sfields : List (String × JsonVal)),
      dlookup fields "state" = some (JsonVal.obj sfields) →
      (dlookup sfields "reported" = none
        ∨ dlookup sfields "reported" = some (JsonVal.obj [])) →
      handleShadowPayload (some (JsonVal.obj fields)) = none := by
    intro fields sfields hstate hrep
    simp only [handleShadowPayload]
    rw [hstate]
    dsimp only [Option.getD]
    rcases hrep with h | h <;> rw [h] <;> rfl
  refine ⟨?_, hnone, ?_⟩
  · intro parsed r h
    match parsed with
    | none => exact absurd h (by simp [handleShadowPayload])
    | some JsonVal.null => exact absurd h (by simp [handleShadowPayload])
    | some (JsonVal.boolean b) => exact absurd h (by simp [handleShadowPayload])
    | some (JsonVal.num n) => exact absurd h (by simp [handleShadowPayload])
    | some (JsonVal.str s) => exact absurd h (by simp [handleShadowPayload])
    | some (JsonVal.arr xs) => exact absurd h (by simp [handleShadowPayload])
    | some (JsonVal.obj fields) =>
        refine ⟨fields, ?_⟩
        simp only [handleShadowPayload] at h
        rcases hstate : dlookup fields "state" with _ | sv
        · rw [hstate] at h
          simp [dlookup, jsonTruthy] at h
        · rw [hstate] at h
          match sv with
          | JsonVal.null => exact absurd h (by simp)
          | JsonVal.boolean b => exact absurd h (by simp)
          | JsonVal.num n => exact absurd h (by simp)
          | JsonVal.str s => exact absurd h (by simp)
          | JsonVal.arr xs => exact absurd h (by simp)
          | JsonVal.obj sfields =>
              refine ⟨sfields, rfl, rfl, ?_⟩
              simp only [Option.getD] at h
              rcases hrep : dlookup sfields "reported" with _ | rv
              · rw [hrep] at h
                simp [jsonTruthy] at h
              · rw [hrep] at h
                by_cases htruthy : jsonTruthy rv = true
                · rw [if_pos htruthy] at h
                  cases h
                  exact ⟨rfl, htruthy⟩
                · rw [if_neg htruthy] at h
                  exact absurd h (by simp)
  · intro fields sfields prev hstate hrep
    unfold processPush
    rw [hnone fields sfields hstate hrep]

/-- C4 witness: a pushed document whose state contains only `desired` fires
no callback and leaves the snapshot unchanged. -/
theorem c4_witness :
    processPush [("SetTemp", JsonVal.num 3)]
        (some (JsonVal.obj [("state",
          JsonVal.obj [("desired", JsonVal.obj [("SetTemp", JsonVal.num 6)])])]))
      = [("SetTemp", JsonVal.num 3)] :=
  c4_only_reported_merged.2.2
    [("state", JsonVal.obj [("desired", JsonVal.obj [("SetTemp", JsonVal.num 6)])])]
    [("desired", JsonVal.obj [("SetTemp", JsonVal.num 6)])]
    [("SetTemp", JsonVal.num 3)] rfl (Or.inl rfl)

/-- Reconnect delay table of the `finally` block of
`DeermaMQTTClient._listen_messages`
(src/custom_components/mqtt_client.py line 304): `for delay in [5, 10, 15, 30]`. -/
def reconnectDelays : List Nat := [5, 10, 15, 30]

/-- Delays actually slept by the reconnect loop
(src/custom_components/mqtt_client.py lines 304-309): the loop walks the
delay table, sleeps each delay, attempts `connect()` — `connectOk i` tells
whether the i-th attempt succeeds — and breaks on the first success.  The
result lists the scheduled delays in order; the loop makes no attempt beyond
the table. -/
def reconnectSchedule (connectOk : Nat → Bool) : List Nat → Nat → List Nat
  | [], _ => []
  | d :: rest, i =>
      d :: (if connectOk i then [] else reconnectSchedule connectOk rest (i + 1))

/-- Scheduled reconnect delays after one unexpected disconnection. -/
def scheduledReconnectDelays (connectOk : Nat → Bool) : List Nat :=
  reconnectSchedule connectOk reconnectDelays 0

/-- C6 counterexample: when every reconnect attempt fails, exactly four
delays (5, 10, 15, 30) are scheduled and there is no fifth attempt at all —
the loop is bounded by the four-element table, so a fifth consecutive
failure does NOT schedule a delay of 30; the session simply stops retrying. -/
theorem c6_counterexample :
    scheduledReconnectDelays (fun _ => false) = [5, 10, 15, 30]
    ∧ (scheduledReconnectDelays (fun _ => false)).get? 4 = none := by
  constructor
  · rfl
  · rfl

theorem reconnectSchedule_take (connectOk : Nat → Bool) (l : List Nat) :
    ∀ i, ∃ n, reconnectSchedule connectOk l i = l.take n := by
  induction l with
  | nil => intro i; exact ⟨0, rfl⟩
  | cons d rest ih =>
      intro i
      by_cases h : connectOk i = true
      · refine ⟨1, ?_⟩
        simp [reconnectSchedule, h]
      · obtain ⟨n, hn⟩ := ih (i + 1)
        refine ⟨n + 1, ?_⟩
        simp [reconnectSchedule, h, hn]

/-- C6 (amended): after an unexpected disconnection the reconnect loop
schedules delays 5, 10, 15, 30 between successive failed attempts and then
gives up: the scheduled delays always form a front portion of the table
`[5, 10, 15, 30]`, at most four attempts are ever made per disconnection,
and when every attempt fails the schedule is exactly `[5, 10, 15, 30]` with
no fifth delay. -/
theorem c6_reconnect_backoff :
    scheduledReconnectDelays (fun _ => false) = [5, 10, 15, 30]
    ∧ (∀ connectOk : Nat → Bool, (scheduledReconnectDelays connectOk).length ≤ 4)
    ∧ (∀ connectOk : Nat → Bool, ∃ n,
        scheduledReconnectDelays connectOk = reconnectDelays.take n) := by
  refine ⟨rfl, ?_, ?_⟩
  · intro connectOk
    obtain ⟨n, hn⟩ := reconnectSchedule_take connectOk reconnectDelays 0
    unfold scheduledReconnectDelays
    rw [hn, List.length_take]
    have h4 : reconnectDelays.length = 4 := rfl
    omega
  · intro connectOk
    exact reconnectSchedule_take connectOk reconnectDelays 0

/-- Temperature code table of `DeermaMQTTClient.async_set_temperature`
(src/custom_components/mqtt_client.py lines 422-425). -/
def tempMapping : List (String × Int) :=
  [("0", 0), ("1", 1), ("2", 2), ("3", 3), ("4", 4), ("5", 5),
   ("6", 6), ("7", 7), ("8", 8), ("9", 9), ("10", 10)]

/-- Embeds `temp_mapping.get(temp_code, 0)`
(src/custom_components/mqtt_client.py line 427): unknown codes default
to 0. -/
def tempCodeToInt (code : String) : Int :=
  (dlookup tempMapping code).getD 0

/-- Shadow update topic configured in `DeermaMQTTClient.__init__`
(src/custom_components/mqtt_client.py line 43). -/
def commandTopic (deviceId : String) : String :=
  "$aws/things/" ++ deviceId ++ "/shadow/update"

/-- Desired-state document published by
`DeermaMQTTClient.async_set_temperature`
(src/custom_components/mqtt_client.py lines 431-441), sent to
`commandTopic`. -/
def setTemperaturePayload (deviceId tempCode : String) : JsonVal :=
  JsonVal.obj [("state", JsonVal.obj [("desired", JsonVal.obj
    [("SetTemp", JsonVal.num (tempCodeToInt tempCode)),
     ("CommandType", JsonVal.str "app"),
     ("EnduserId", JsonVal.str deviceId)])])]

/-- Digit-sequence parser used by `pythonInt`: accumulates decimal digits,
failing on the first non-digit character. -/
def parseDigitsAux : List Char → Nat → Option Nat
  | [], acc => some acc
  | c :: rest, acc =>
      if c.isDigit then parseDigitsAux rest (acc * 10 + (c.toNat - 48))
      else none

/-- Models Python `int(...)` on the option-code strings this integration
passes around: an optional sign followed by decimal digits parses to the
integer, anything else raises `ValueError` (modelled as `none`). -/
def pythonInt (s : String) : Option Int :=
  match s.data with
  | [] => none
  | '-' :: rest =>
      if rest.isEmpty then none
      else (parseDigitsAux rest 0).map (fun n => -(n : Int))
  | '+' :: rest =>
      if rest.isEmpty then none
      else (parseDigitsAux rest 0).map (fun n => (n : Int))
  | cs => (parseDigitsAux cs 0).map (fun n => (n : Int))

/-- Desired-state document published by `DeermaMQTTClient.async_set_volume`
(src/custom_components/mqtt_client.py lines 456-473): the code is parsed
directly with `int(...)` (no table), `none` modelling the `ValueError` on a
non-numeric code, which the `except` turns into a failed command. -/
def setVolumePayload (deviceId volumeCode : String) : Option JsonVal :=
  (pythonInt volumeCode).map (fun v =>
    JsonVal.obj [("state", JsonVal.obj [("desired", JsonVal.obj
      [("SetOutlet", JsonVal.num v),
       ("CommandType", JsonVal.str "app"),
       ("EnduserId", JsonVal.str deviceId)])])])

/-- C7: `requestTemperature("6")` publishes a desired-state document with
`SetTemp = 6`, `CommandType = "app"` and `EnduserId` equal to the device id;
codes `"0"`..`"10"` map to the matching integers and any unknown code maps
to 0; `requestVolume("4")` publishes `SetOutlet = 4` by direct integer
parsing; the publish topic is the device's shadow update topic. -/
theorem c7_command_mapping (deviceId : String) :
    setTemperaturePayload deviceId "6"
      = JsonVal.obj [("state", JsonVal.obj [("desired", JsonVal.obj
          [("SetTemp", JsonVal.num 6),
           ("CommandType", JsonVal.str "app"),
           ("EnduserId", JsonVal.str deviceId)])])]
    ∧ (tempCodeToInt "0" = 0 ∧ tempCodeToInt "1" = 1 ∧ tempCodeToInt "2" = 2
      ∧ tempCodeToInt "3" = 3 ∧ tempCodeToInt "4" = 4 ∧ tempCodeToInt "5" = 5
      ∧ tempCodeToInt "6" = 6 ∧ tempCodeToInt "7" = 7 ∧ tempCodeToInt "8" = 8
      ∧ tempCodeToInt "9" = 9 ∧ tempCodeToInt "10" = 10)
    ∧ (∀ code : String, dlookup tempMapping code = none → tempCodeToInt code = 0)
    ∧ setVolumePayload deviceId "4"
      = some (JsonVal.obj [("state", JsonVal.obj [("desired", JsonVal.obj
          [("SetOutlet", JsonVal.num 4),
           ("CommandType", JsonVal.str "app"),
           ("EnduserId", JsonVal.str deviceId)])])])
    ∧ commandTopic deviceId = "$aws/things/" ++ deviceId ++ "/shadow/update" := by
  have hv : pythonInt "4" = some 4 := by decide
  refine ⟨rfl, ⟨rfl, rfl, rfl, rfl, rfl, rfl, rfl, rfl, rfl, rfl, rfl⟩, ?_, ?_, rfl⟩
  · intro code h
    unfold tempCodeToInt
    rw [h]
    rfl
  · unfold setVolumePayload
    rw [hv]
    rfl

/-- C7 witness: the unknown-code branch of `c7_command_mapping` evaluated at
the unmapped code `"11"`, which defaults to 0. -/
theorem c7_witness : tempCodeToInt "11" = 0 :=
  (c7_command_mapping "dev").2.2.1 "11" (by decide)

/-- Publish operations performed by the client after connecting, with the
`packet_id` literal passed to `_build_mqtt_publish_packet` at each call site:
`_request_device_state` uses `packet_id=3` (line 410), `async_set_temperature`
uses `packet_id=4` (line 441), `async_set_volume` uses `packet_id=5`
(line 473); there is no counter anywhere. -/
inductive PublishOp : Type
  | requestState : PublishOp
  | setTemperature : String → PublishOp
  | setVolume : String → PublishOp

/-- Packet identifier carried by the PUBLISH frame of each operation. -/
def publishPacketId : PublishOp → Nat
  | PublishOp.requestState => 3
  | PublishOp.setTemperature _ => 4
  | PublishOp.setVolume _ => 5

/-- C8 counterexample: two successive QoS-1 temperature publishes on one
session carry the SAME packet identifier (4), not a strictly increasing
one — the packet identifiers are hard-coded constants, not allocated from a
counter. -/
theorem c8_counterexample :
    ¬ publishPacketId (PublishOp.setTemperature "6")
        < publishPacketId (PublishOp.setTemperature "7") := by
  decide

/-- C8 (amended): packet identifiers of QoS-1 publishes are fixed per call
site — 3 for the state request, 4 for every temperature command, 5 for every
volume command — so successive publishes of the same operation reuse the
same identifier instead of drawing from a monotonically increasing
counter. -/
theorem c8_packet_ids_fixed :
    publishPacketId PublishOp.requestState = 3
    ∧ (∀ c, publishPacketId (PublishOp.setTemperature c) = 4)
    ∧ (∀ c, publishPacketId (PublishOp.setVolume c) = 5)
    ∧ (∀ c c2, publishPacketId (PublishOp.setTemperature c)
        = publishPacketId (PublishOp.setTemperature c2)) := by
  exact ⟨rfl, fun c => rfl, fun c => rfl, fun c c2 => rfl⟩

/-- Substring test used at line 253 of src/custom_components/mqtt_client.py
(`"/shadow/get/accepted" in topic or "/shadow/update/accepted" in topic`):
`splitOn` yields at least two pieces exactly when the pattern occurs. -/
def topicHasShadowSuffix (topic : String) : Bool :=
  2 ≤ (topic.splitOn "/shadow/get/accepted").length
    || 2 ≤ (topic.splitOn "/shadow/update/accepted").length

/-- Embeds `DeermaMQTTClient._handle_mqtt_packet`
(src/custom_components/mqtt_client.py lines 232-271).  `decodeTopic` is an
arbitrary total function modelling `bytes.decode("utf-8", errors="ignore")`,
which never raises; `parseJson` models UTF-8 decoding plus `json.loads` of
the payload, `none` standing for any exception there (swallowed by the
`except` block).  The result is the argument handed to the push callback;
frames shorter than 2 bytes, non-PUBLISH frame types (CONNACK and SUBACK are
only logged), undecodable PUBLISH frames, empty topics or payloads,
non-shadow topics and non-reported documents all produce `none`. -/
def handleMqttPacket (decodeTopic : List Nat → String)
    (parseJson : List Nat → Option JsonVal) (packet : List Nat) :
    Option JsonVal :=
  if packet.length < 2 then none
  else if (packet.getD 0 0 &&& 240) >>> 4 = 3 then
    match parseMqttPublishPacket packet with
    | some (topicBytes, payloadBytes) =>
        if decodeTopic topicBytes != "" && !payloadBytes.isEmpty then
          if topicHasShadowSuffix (decodeTopic topicBytes) then
            handleShadowPayload (parseJson payloadBytes)
          else none
        else none
    | none => none
  else none

/-- C10: inbound frame handling is a total function and never raises — in
particular: frames shorter than 2 bytes are ignored; whenever the PUBLISH
parser rejects a frame no callback fires; a PUBLISH whose topic-length,
topic or packet-identifier fields run past the end of the buffer is rejected
by the parser (the `(None, None)` return); when JSON parsing of the payload
fails (exception caught and logged) no callback fires, for every topic
decoder — the topic decode itself (`errors="ignore"`) is total; and
non-PUBLISH frame types never fire the callback. -/
theorem c10_inbound_handling_total :
    (∀ (decodeTopic : List Nat → String) (parseJson : List Nat → Option JsonVal)
        (packet : List Nat), packet.length < 2 →
        handleMqttPacket decodeTopic parseJson packet = none)
    ∧ (∀ (decodeTopic : List Nat → String) (parseJson : List Nat → Option JsonVal)
        (packet : List Nat), parseMqttPublishPacket packet = none →
        handleMqttPacket decodeTopic parseJson packet = none)
    ∧ (∀ (packet : List Nat) (remainingLength pos : Nat),
        ¬ packet.length < 4 →
        parseMqttRemainingLength packet 1 = (remainingLength, pos) →
        (pos + 2 > packet.length ∨ remainingLength = 0
          ∨ pos + 2 + publishTopicLength packet pos > packet.length
          ∨ (1 ≤ publishQos packet
              ∧ pos + 2 + publishTopicLength packet pos + 2 > packet.length)) →
        parseMqttPublishPacket packet = none)
    ∧ (∀ (decodeTopic : List Nat → String) (packet : List Nat),
        handleMqttPacket decodeTopic (fun _ => none) packet = none)
    ∧ (∀ (decodeTopic : List Nat → String) (parseJson : List Nat → Option JsonVal)
        (packet : List Nat), ¬ (packet.getD 0 0 &&& 240) >>> 4 = 3 →
        handleMqttPacket decodeTopic parseJson packet = none) := by
  refine ⟨?_, ?_, ?_, ?_, ?_⟩
  · intro decodeTopic parseJson packet h
    unfold handleMqttPacket
    rw [if_pos h]
  · intro decodeTopic parseJson packet hp
    unfold handleMqttPacket
    by_cases h1 : packet.length < 2
    · rw [if_pos h1]
    · rw [if_neg h1]
      by_cases h2 : (packet.getD 0 0 &&& 240) >>> 4 = 3
      · rw [if_pos h2, hp]
      · rw [if_neg h2]
  · intro packet remainingLength pos h4 hrl hbad
    unfold parseMqttPublishPacket
    rw [if_neg h4, hrl]
    dsimp only
    by_cases h1 : pos + 2 > packet.length ∨ remainingLength = 0
    · rw [if_pos h1]
    · rw [if_neg h1]
      by_cases h2 : pos + 2 + publishTopicLength packet pos > packet.length
      · rw [if_pos h2]
      · rw [if_neg h2]
        by_cases h3 : 1 ≤ publishQos packet
            ∧ pos + 2 + publishTopicLength packet pos + 2 > packet.length
        · rw [if_pos h3]
        · exfalso
          rcases hbad with hb | hb | hb | hb
          · exact h1 (Or.inl hb)
          · exact h1 (Or.inr hb)
          · exact h2 hb
          · exact h3 hb
  · intro decodeTopic packet
    unfold handleMqttPacket
    by_cases h1 : packet.length < 2
    · rw [if_pos h1]
    · rw [if_neg h1]
      by_cases h2 : (packet.getD 0 0 &&& 240) >>> 4 = 3
      · rw [if_pos h2]
        rcases hp : parseMqttPublishPacket packet with _ | ⟨tb, pb⟩
        · rfl
        · dsimp only
          split_ifs <;> rfl
      · rw [if_neg h2]
  · intro decodeTopic parseJson packet h
    unfold handleMqttPacket
    by_cases h1 : packet.length < 2
    · rw [if_pos h1]
    · rw [if_neg h1, if_neg h]

/-- C10 witness: the short-frame part of `c10_inbound_handling_total`
applied to the one-byte frame `[0x30]`. -/
theorem c10_witness :
    handleMqttPacket (fun _ => "topic") (fun _ => none) [48] = none :=
  c10_inbound_handling_total.1 (fun _ => "topic") (fun _ => none) [48] (by decide)
